import Mathlib

/-!
Verification development for the CZI-to-TIFF export script (src/main.py).

The per-channel pixel transform, the colormap synthesis, the output-file
naming and the fixed fluorophore lookup table are embedded as executable
Lean definitions over exact rational pixel values.  The library routines
the script calls (skimage.exposure.rescale_intensity,
skimage.exposure.adjust_gamma, skimage.util.img_as_ubyte / img_as_uint,
np.linspace, np.round, os.path.basename / splitext) are embedded from
their semantics, with floating-point arithmetic modelled on the exact
rationals.
-/

/-- Pixel dtype of a decoded channel plane.  The constructor `other`
covers every numpy dtype besides uint8 and uint16 (for CZI data these are
the floating-point dtypes, whose skimage dtype_limits are (-1, 1)). -/
inductive NpDtype where
  | uint8
  | uint16
  | other (name : String)
deriving DecidableEq, Repr

/-- A single channel plane: its dtype together with its pixel values,
modelled as exact rationals (integer-valued for the integer dtypes). -/
structure NpImage where
  dtype : NpDtype
  pixels : List ℚ
deriving DecidableEq, Repr

/-- One channel's entry of the parsed DisplaySetting metadata.  The
numeric fields hold the value of Python `float(...)` applied to the XML
text; absent XML elements are `none` (main.py lines 73-75 use `.get` with
defaults 0, 1 and 1). -/
structure ChannelMetadata where
  low : Option ℚ
  high : Option ℚ
  gamma : Option ℚ
  color : Option String
  shortName : Option String
deriving DecidableEq, Repr

/-- The Python exceptions the per-channel body can raise in the embedded
fragment: a KeyError from a dict lookup (missing `ShortName` key or a
short name absent from SHORTNAME_MAPPING, main.py line 111) and a
ValueError from `int(s, 16)` on a malformed hex slice (line 102 via
hex_to_rgb). -/
inductive PyError where
  | keyError (key : String)
  | valueError
deriving DecidableEq, Repr

/-- The value of the `dtype` variable after the resolution at main.py
lines 53-58: either a numpy dtype, or (for an argument that is none of
"default" / "uint8" / "uint16") the unchanged argument string, since the
if/elif chain has no else branch. -/
inductive ResolvedDtype where
  | np (d : NpDtype)
  | str (s : String)
deriving DecidableEq, Repr

/-- Everything `imwrite` receives for one channel (main.py lines 113-115):
the output filename, the processed plane, and the optional 3-row, 256-entry
colormap. -/
structure ChannelOutput where
  filename : String
  image : NpImage
  colormap : Option (List (List ℕ))
deriving DecidableEq, Repr

/-- The decoded CZI container: the dtype of the squeezed pixel volume,
one pixel plane per channel, and the per-channel DisplaySetting records
(same order). -/
structure CziFile where
  dtype : NpDtype
  planes : List (List ℚ)
  channels : List ChannelMetadata
deriving DecidableEq, Repr

/-- Semantics of `np.round` on a scalar: round half to even. -/
def npRound (q : ℚ) : ℤ :=
  let f := ⌊q⌋
  if q - f < 1/2 then f
  else if 1/2 < q - f then f + 1
  else if f % 2 = 0 then f else f + 1

/-- Truncation toward zero, the behaviour of a numpy float-to-integer
`astype` cast for values inside the target range. -/
def truncQ (q : ℚ) : ℤ :=
  if q < 0 then -⌊-q⌋ else ⌊q⌋

/-- Effect, on one pixel value, of materialising a float computation as an
array of the given dtype (`np.asarray(..., dtype=...)` / `.astype`): the
integer dtypes truncate toward zero, a float dtype keeps the value.  All
uses in this development stay inside the target range, so no wraparound
is modelled. -/
def castToDtype (d : NpDtype) (q : ℚ) : ℚ :=
  match d with
  | NpDtype.other _ => q
  | _ => (truncQ q : ℚ)

/-- skimage `dtype_limits`: the intensity range associated with a dtype,
optionally clipped to nonnegative values.  Float dtypes have range
(-1, 1). -/
def dtype_limits (d : NpDtype) (clip_negative : Bool) : ℚ × ℚ :=
  match d with
  | NpDtype.uint8 => (0, 255)
  | NpDtype.uint16 => (0, 65535)
  | NpDtype.other _ => (if clip_negative then 0 else -1, 1)

/-- skimage `rescale_intensity(image, in_range=(imin, imax))` with the
default `out_range='dtype'`: the output range is the dtype range of the
input image (with `clip_negative = (imin >= 0)`), each pixel is clipped
to [imin, imax], mapped affinely onto the output range, and the result is
cast back to the image's dtype. -/
def rescale_intensity (image : NpImage) (in_range : ℚ × ℚ) : NpImage :=
  let imin := in_range.1
  let imax := in_range.2
  let o := dtype_limits image.dtype (decide (0 ≤ imin))
  { image with pixels := image.pixels.map (fun p =>
      let c := min (max p imin) imax
      let c2 := if imin ≠ imax then (c - imin) / (imax - imin) else c
      castToDtype image.dtype (c2 * (o.2 - o.1) + o.1)) }

/-- skimage `adjust_gamma(image, gamma)`:
`((image / scale) ** gamma * scale).astype(dtype)` with
`scale = dtype_limits(image, True)[1] - dtype_limits(image, True)[0]`.
export_czi only calls this when gamma is not 1, and no claim in this
development evaluates its numeric output (every claim's scenario has
gamma = 1, where the call is skipped); a non-integer gamma denotes an
irrational real power, outside the rational pixel model, so the exponent
is modelled through `npRound`. -/
def adjust_gamma (image : NpImage) (g : ℚ) : NpImage :=
  let lim := dtype_limits image.dtype true
  let scale := lim.2 - lim.1
  { image with pixels := image.pixels.map (fun p =>
      castToDtype image.dtype ((p / scale) ^ npRound g * scale)) }

/-- skimage `img_as_ubyte`: identity on uint8; floor-division by 256 on
uint16 (downscale with precision loss); round-half-even of 255 * value,
clipped to [0, 255], on float input (skimage raises for float values
outside [-1, 1]; that raise is not modelled — no claim converts a float
plane). -/
def img_as_ubyte (image : NpImage) : NpImage :=
  match image.dtype with
  | NpDtype.uint8 => image
  | NpDtype.uint16 =>
      { dtype := NpDtype.uint8, pixels := image.pixels.map (fun p => ((⌊p / 256⌋ : ℤ) : ℚ)) }
  | NpDtype.other _ =>
      { dtype := NpDtype.uint8, pixels := image.pixels.map (fun p => ((min (max (npRound (p * 255)) 0) 255 : ℤ) : ℚ)) }

/-- skimage `img_as_uint`: identity on uint16; exact upscale by 257 on
uint8; round-half-even of 65535 * value, clipped to [0, 65535], on float
input (the out-of-range raise is not modelled, as for img_as_ubyte). -/
def img_as_uint (image : NpImage) : NpImage :=
  match image.dtype with
  | NpDtype.uint16 => image
  | NpDtype.uint8 =>
      { dtype := NpDtype.uint16, pixels := image.pixels.map (fun p => p * 257) }
  | NpDtype.other _ =>
      { dtype := NpDtype.uint16, pixels := image.pixels.map (fun p => ((min (max (npRound (p * 65535)) 0) 65535 : ℤ) : ℚ)) }

/-- The fixed fluorophore short-name lookup table (main.py lines 10-20). -/
def SHORTNAME_MAPPING : List (String × ℕ) :=
  [("AF350", 1), ("AF405", 2), ("AF430", 3), ("AF480", 4), ("AF546", 5),
   ("AF594", 6), ("AF647", 7), ("PCP55", 8), ("AF700", 9), ("I800r", 10),
   ("PhaCo", 11)]

/-- Dict lookup `SHORTNAME_MAPPING[s]`: `none` models the KeyError. -/
def lookupShortName (s : String) : Option ℕ :=
  SHORTNAME_MAPPING.lookup s

/-- Value of one hexadecimal digit character (0-9, a-f, A-F by ASCII
code), `none` for any other character. -/
def hexDigitVal (c : Char) : Option ℕ :=
  if 48 ≤ c.toNat ∧ c.toNat ≤ 57 then some (c.toNat - 48)
  else if 97 ≤ c.toNat ∧ c.toNat ≤ 102 then some (c.toNat - 87)
  else if 65 ≤ c.toNat ∧ c.toNat ≤ 70 then some (c.toNat - 55)
  else none

/-- Python `int(s, 16)` on a slice: fails (ValueError) on an empty slice
or any non-hex character, otherwise the base-16 value. -/
def pyIntHex (cs : List Char) : Option ℕ :=
  if cs = [] then none
  else cs.foldlM (fun acc c => (hexDigitVal c).map (fun v => acc * 16 + v)) 0

/-- main.py `hex_to_rgb`: parse the character pairs at offsets 0, 2 and 4
of the string as base-16 integers (`int(hex[i:i+2], 16)`). -/
def hex_to_rgb (hex : String) : Option (ℕ × ℕ × ℕ) :=
  let cs := hex.toList
  match pyIntHex (cs.take 2), pyIntHex ((cs.drop 2).take 2), pyIntHex ((cs.drop 4).take 2) with
  | some r, some g, some b => some (r, g, b)
  | _, _, _ => none

/-- The slice applied to the Color string before hex_to_rgb (main.py line
102): `.lstrip("#")` removes every leading '#', then `[2:]` drops the two
alpha digits. -/
def colorHexPart (s : String) : String :=
  String.mk ((s.toList.dropWhile (fun c => c = '#')).drop 2)

/-- Value at index k of `np.linspace(0, stop, num=256, dtype=np.uint8)`:
the exact ramp value k * stop / 255 truncated to an integer by the uint8
cast.  np.linspace writes the endpoint exactly, and at k = 255 the exact
quotient equals stop, so the formula covers the endpoint as well.  (The
claims proved about this ramp — its two endpoints and monotonicity — are
insensitive to binary floating-point rounding of the interior points.) -/
def linspace255 (stop : ℕ) (k : ℕ) : ℕ := k * stop / 255

/-- One row of the synthesized colormap: the 256-entry ramp from 0 to
`stop` (main.py lines 104-106). -/
def rampRow (stop : ℕ) : List ℕ :=
  (List.range 256).map (linspace255 stop)

/-- The 3 x 256 colormap built at main.py lines 103-106: row 0 ramps to
the red component, row 1 to green, row 2 to blue. -/
def makeColormap (rgb : ℕ × ℕ × ℕ) : List (List ℕ) :=
  [rampRow rgb.1, rampRow rgb.2.1, rampRow rgb.2.2]

/-- The colormap branch (main.py lines 100-108): only when the resolved
output dtype is np.uint8 is a colormap synthesized, from the channel's
Color string (default "#FFFFFFFF"); otherwise colormap is None.  A
malformed hex slice raises ValueError. -/
def colormapStep (dt : ResolvedDtype) (cm : ChannelMetadata) : Except PyError (Option (List (List ℕ))) :=
  if dt = ResolvedDtype.np NpDtype.uint8 then
    match hex_to_rgb (colorHexPart (cm.color.getD ("#FFFFFFFF"))) with
    | none => Except.error PyError.valueError
    | some rgb => Except.ok (some (makeColormap rgb))
  else Except.ok none

/-- Conversion of the display bounds before the rescale call (main.py
lines 80-86): for a uint8 plane both bounds are multiplied by 255 and
rounded, for a uint16 plane by 65535 and rounded; for any other plane
dtype the if/elif chain leaves the bounds unchanged. -/
def rescaleBounds (d : NpDtype) (display_min display_max : ℚ) : ℚ × ℚ :=
  match d with
  | NpDtype.uint8 => ((npRound (display_min * 255) : ℚ), (npRound (display_max * 255) : ℚ))
  | NpDtype.uint16 => ((npRound (display_min * 65535) : ℚ), (npRound (display_max * 65535) : ℚ))
  | NpDtype.other _ => (display_min, display_max)

/-- The dtype-setting step (main.py lines 94-98): img_as_ubyte when the
resolved dtype equals np.uint8, img_as_uint when it equals np.uint16,
otherwise (including an unrecognized dtype string) the image is left
unchanged. -/
def setDtypeStep (dt : ResolvedDtype) (image : NpImage) : NpImage :=
  if dt = ResolvedDtype.np NpDtype.uint8 then img_as_ubyte image
  else if dt = ResolvedDtype.np NpDtype.uint16 then img_as_uint image
  else image

/-- The conditional rescale (main.py lines 77-88): applied only when the
display range differs from (0, 1), with the bounds converted by
rescaleBounds first. -/
def rescaleStep (image : NpImage) (display_min display_max : ℚ) : NpImage :=
  if display_min ≠ 0 ∨ display_max ≠ 1 then
    rescale_intensity image (rescaleBounds image.dtype display_min display_max)
  else image

/-- The conditional gamma adjustment (main.py lines 90-92): applied only
when gamma differs from 1. -/
def gammaStep (image : NpImage) (g : ℚ) : NpImage :=
  if g ≠ 1 then adjust_gamma image g else image

/-- The body of the per-channel loop of export_czi (main.py lines 67-115)
for one channel: read the display parameters with their defaults, rescale
when the display range is not (0, 1), adjust gamma when it is not 1, set
the output dtype, synthesize the colormap, look up the channel number,
and produce the data of the imwrite call.  An error result means the
channel's output file is never written. -/
def export_czi_channel (dt : ResolvedDtype) (base_name : String) (image : NpImage) (cm : ChannelMetadata) : Except PyError ChannelOutput :=
  match colormapStep dt cm with
  | Except.error e => Except.error e
  | Except.ok colormap =>
    match cm.shortName with
    | none => Except.error (PyError.keyError ("ShortName"))
    | some s =>
      match lookupShortName s with
      | none => Except.error (PyError.keyError s)
      | some n =>
        Except.ok { filename := base_name ++ "C" ++ toString n ++ ".tif"
                  , image :=
                      setDtypeStep dt
                        (gammaStep (rescaleStep image (cm.low.getD 0) (cm.high.getD 1))
                          (cm.gamma.getD 1))
                  , colormap := colormap }

/-- Resolution of the dtype argument (main.py lines 52-58): "default"
takes the container's dtype, "uint8"/"uint16" the corresponding numpy
dtype, and any other string falls through the if/elif chain unchanged. -/
def resolveDtype (dtype : String) (czi_dtype : NpDtype) : ResolvedDtype :=
  if dtype = "default" then ResolvedDtype.np czi_dtype
  else if dtype = "uint8" then ResolvedDtype.np NpDtype.uint8
  else if dtype = "uint16" then ResolvedDtype.np NpDtype.uint16
  else ResolvedDtype.str dtype

/-- POSIX `os.path.basename`: the suffix after the last '/'. -/
def pyBasename (s : String) : String :=
  String.mk ((s.toList.reverse.takeWhile (fun c => c ≠ '/')).reverse)

/-- Index of the last '.' of a character list, if any. -/
def lastDotIdx (cs : List Char) : Option ℕ :=
  match cs.reverse.findIdx? (fun c => c = '.') with
  | none => none
  | some j => some (cs.length - 1 - j)

/-- Root part of `os.path.splitext` on a separator-free name (the script
applies it to a basename): split at the last '.', except that a name
whose characters before that dot are all dots (e.g. ".bashrc") is not
split. -/
def pySplitextRoot (s : String) : String :=
  let cs := s.toList
  match lastDotIdx cs with
  | none => s
  | some i => if (cs.take i).all (fun c => c = '.') then s else String.mk (cs.take i)

/-- The output filename prefix (main.py lines 43-47): the input's stem
when no round number is supplied, otherwise "R" followed by the round
number. -/
def output_base_name (czi_filename : String) (round_number : Option ℕ) : String :=
  match round_number with
  | none => pySplitextRoot (pyBasename czi_filename)
  | some r => "R" ++ toString r

/-- The round-number parse of the batch loop (main.py line 136):
`int(file[-6])`, i.e. the decimal value of the 6th-from-last character;
`none` models the IndexError / ValueError on short names or non-digit
characters. -/
def batch_round (file : String) : Option ℕ :=
  let cs := file.toList
  if 6 ≤ cs.length then
    let c := cs.getD (cs.length - 6) ' '
    if 48 ≤ c.toNat ∧ c.toNat ≤ 57 then some (c.toNat - 48) else none
  else none

/-- The channel loop of export_czi: channels processed in order, stopping
at the first error; the first component lists the outputs actually
written, the second the error that aborted the loop, if any. -/
def runChannels (srcDtype : NpDtype) (dt : ResolvedDtype) (base : String) : List (List ℚ × ChannelMetadata) → List ChannelOutput × Option PyError
  | [] => ([], none)
  | (px, cm) :: rest =>
    match export_czi_channel dt base { dtype := srcDtype, pixels := px } cm with
    | Except.error e => ([], some e)
    | Except.ok out =>
      let r := runChannels srcDtype dt base rest
      (out :: r.1, r.2)

/-- main.py `export_czi` on a decoded container: resolve the dtype
argument, build the filename prefix, and run the per-channel loop. -/
def export_czi (czi_filename : String) (round_number : Option ℕ) (dtype : String) (czi : CziFile) : List ChannelOutput × Option PyError :=
  runChannels czi.dtype (resolveDtype dtype czi.dtype) (output_base_name czi_filename round_number)
    (czi.planes.zip czi.channels)

/-! Helper lemmas about the pipeline steps. -/

/-- With the default display range (0, 1) the rescale branch is skipped. -/
theorem rescaleStep_default (image : NpImage) : rescaleStep image 0 1 = image := by
  simp [rescaleStep]

/-- With the default gamma 1 the gamma branch is skipped. -/
theorem gammaStep_default (image : NpImage) : gammaStep image 1 = image := by
  simp [gammaStep]

/-- The rescale step never changes the plane's dtype. -/
theorem rescaleStep_dtype (image : NpImage) (a b : ℚ) : (rescaleStep image a b).dtype = image.dtype := by
  unfold rescaleStep rescale_intensity
  split <;> rfl

/-- The gamma step never changes the plane's dtype. -/
theorem gammaStep_dtype (image : NpImage) (g : ℚ) : (gammaStep image g).dtype = image.dtype := by
  unfold gammaStep adjust_gamma
  split <;> rfl

/-- For a resolved dtype that is not np.uint8, the colormap branch takes
its else arm: colormap = None. -/
theorem colormapStep_not_uint8 (dt : ResolvedDtype) (cm : ChannelMetadata)
    (h : dt ≠ ResolvedDtype.np NpDtype.uint8) : colormapStep dt cm = Except.ok none := by
  unfold colormapStep
  rw [if_neg h]

/-- Unfolding of a successful per-channel run with all three lookups
explicit. -/
theorem export_czi_channel_ok_eq (dt : ResolvedDtype) (base_name : String) (image : NpImage)
    (cm : ChannelMetadata) (copt : Option (List (List ℕ))) (s : String) (n : ℕ)
    (hc : colormapStep dt cm = Except.ok copt)
    (hs : cm.shortName = some s) (hn : lookupShortName s = some n) :
    export_czi_channel dt base_name image cm =
      Except.ok { filename := base_name ++ "C" ++ toString n ++ ".tif"
                , image :=
                    setDtypeStep dt
                      (gammaStep (rescaleStep image (cm.low.getD 0) (cm.high.getD 1))
                        (cm.gamma.getD 1))
                , colormap := copt } := by
  unfold export_czi_channel
  simp only [hc, hs, hn]

/-- Inversion of a successful per-channel run: the colormap comes from
colormapStep, the image from the three pipeline steps, and the filename
from the short-name lookup. -/
theorem export_czi_channel_ok_inv (dt : ResolvedDtype) (base_name : String) (image : NpImage)
    (cm : ChannelMetadata) (out : ChannelOutput)
    (h : export_czi_channel dt base_name image cm = Except.ok out) :
    colormapStep dt cm = Except.ok out.colormap ∧
    out.image =
      setDtypeStep dt
        (gammaStep (rescaleStep image (cm.low.getD 0) (cm.high.getD 1)) (cm.gamma.getD 1)) ∧
    ∃ s n, cm.shortName = some s ∧ lookupShortName s = some n ∧
      out.filename = base_name ++ "C" ++ toString n ++ ".tif" := by
  unfold export_czi_channel at h
  cases hc : colormapStep dt cm with
  | error e => rw [hc] at h; exact absurd h (by simp)
  | ok copt =>
    simp only [hc] at h
    cases hs : cm.shortName with
    | none => simp only [hs] at h; exact Except.noConfusion h
    | some s =>
      simp only [hs] at h
      cases hn : lookupShortName s with
      | none => simp only [hn] at h; exact Except.noConfusion h
      | some n =>
        simp only [hn, Except.ok.injEq] at h
        subst h
        exact ⟨rfl, rfl, s, n, rfl, hn, rfl⟩

/-- C1: for every channel whose metadata gives display range (0, 1) and
gamma 1, the exported pixel plane equals the direct dtype conversion
(setDtypeStep) of the input plane: the rescale and the gamma step are
both skipped, so the transform is the identity followed by the standard
8-bit or 16-bit intensity-range conversion. -/
theorem C1_identity_transform (dt : ResolvedDtype) (base_name : String) (image : NpImage)
    (cm : ChannelMetadata) (out : ChannelOutput)
    (hlow : cm.low.getD 0 = 0) (hhigh : cm.high.getD 1 = 1) (hgamma : cm.gamma.getD 1 = 1)
    (hout : export_czi_channel dt base_name image cm = Except.ok out) :
    out.image = setDtypeStep dt image := by
  have h := (export_czi_channel_ok_inv dt base_name image cm out hout).2.1
  rw [hlow, hhigh, hgamma, rescaleStep_default, gammaStep_default] at h
  exact h

/-- Witness for C1 at a concrete channel: uint16 export of a uint8 plane
with all display metadata absent. -/
theorem C1_identity_transform_witness :
    ({ low := none, high := none, gamma := none, color := none
     , shortName := some ("AF350") } : ChannelMetadata).low.getD 0 = 0 ∧
    export_czi_channel (ResolvedDtype.np NpDtype.uint16) ("R1")
        { dtype := NpDtype.uint8, pixels := [] }
        { low := none, high := none, gamma := none, color := none, shortName := some ("AF350") }
      = Except.ok { filename := "R1C1.tif"
                  , image := { dtype := NpDtype.uint16, pixels := [] }
                  , colormap := none } ∧
    ({ filename := "R1C1.tif", image := { dtype := NpDtype.uint16, pixels := [] }
     , colormap := none } : ChannelOutput).image
      = setDtypeStep (ResolvedDtype.np NpDtype.uint16) { dtype := NpDtype.uint8, pixels := [] } :=
  ⟨rfl, rfl,
   C1_identity_transform (ResolvedDtype.np NpDtype.uint16) ("R1")
     { dtype := NpDtype.uint8, pixels := [] }
     { low := none, high := none, gamma := none, color := none, shortName := some ("AF350") }
     { filename := "R1C1.tif", image := { dtype := NpDtype.uint16, pixels := [] }
     , colormap := none }
     rfl rfl rfl rfl⟩

/-- C5: when the dtype argument is "uint16" — or, in general, whenever
the resolved output dtype is not np.uint8 — the channel output is
produced with colormap = None, whatever Color metadata the channel
carries. -/
theorem C5_uint16_no_colormap (dtypeArg : String) (czi_dtype : NpDtype)
    (base_name : String) (image : NpImage) (cm : ChannelMetadata) (out : ChannelOutput)
    (hdt : dtypeArg = "uint16" ∨ resolveDtype dtypeArg czi_dtype ≠ ResolvedDtype.np NpDtype.uint8)
    (hout : export_czi_channel (resolveDtype dtypeArg czi_dtype) base_name image cm = Except.ok out) :
    out.colormap = none := by
  have hne : resolveDtype dtypeArg czi_dtype ≠ ResolvedDtype.np NpDtype.uint8 := by
    rcases hdt with h | h
    · subst h
      simp [resolveDtype]
    · exact h
  have h := (export_czi_channel_ok_inv _ _ _ _ _ hout).1
  rw [colormapStep_not_uint8 _ _ hne] at h
  injection h with h2
  exact h2.symm

/-- Witness for C5: uint16 export of a uint8 container whose channel has
explicit Color metadata; the output colormap is still None. -/
theorem C5_uint16_no_colormap_witness :
    (("uint16" : String) = "uint16"
      ∨ resolveDtype ("uint16") NpDtype.uint8 ≠ ResolvedDtype.np NpDtype.uint8) ∧
    export_czi_channel (resolveDtype ("uint16") NpDtype.uint8) ("B")
        { dtype := NpDtype.uint8, pixels := [] }
        { low := none, high := none, gamma := none, color := some ("#FF00FF42")
        , shortName := some ("AF647") }
      = Except.ok { filename := "BC7.tif"
                  , image := { dtype := NpDtype.uint16, pixels := [] }
                  , colormap := none } ∧
    ({ filename := "BC7.tif", image := { dtype := NpDtype.uint16, pixels := [] }
     , colormap := none } : ChannelOutput).colormap = none :=
  ⟨Or.inl rfl, rfl,
   C5_uint16_no_colormap ("uint16") NpDtype.uint8 ("B")
     { dtype := NpDtype.uint8, pixels := [] }
     { low := none, high := none, gamma := none, color := some ("#FF00FF42")
     , shortName := some ("AF647") }
     { filename := "BC7.tif", image := { dtype := NpDtype.uint16, pixels := [] }
     , colormap := none }
     (Or.inl rfl) rfl⟩

/-- C6: a channel whose ShortName is absent from SHORTNAME_MAPPING makes
the per-channel body fail with the unhandled lookup KeyError; the failure
precedes the imwrite call, so no ChannelOutput is produced and the
channel loop records no written file for that channel. -/
theorem C6_shortname_lookup_error (dt : ResolvedDtype) (base_name : String) (image : NpImage)
    (cm : ChannelMetadata) (copt : Option (List (List ℕ))) (s : String)
    (hc : colormapStep dt cm = Except.ok copt)
    (hs : cm.shortName = some s) (hn : lookupShortName s = none) :
    export_czi_channel dt base_name image cm = Except.error (PyError.keyError s) ∧
    runChannels image.dtype dt base_name [(image.pixels, cm)] = ([], some (PyError.keyError s)) := by
  have he : export_czi_channel dt base_name image cm = Except.error (PyError.keyError s) := by
    unfold export_czi_channel
    simp only [hc, hs, hn]
  have heta : ({ dtype := image.dtype, pixels := image.pixels } : NpImage) = image := rfl
  refine ⟨he, ?_⟩
  unfold runChannels
  rw [heta, he]

/-- Witness for C6: short name "DAPI" is not in the table and the channel
fails with the lookup KeyError. -/
theorem C6_shortname_lookup_error_witness :
    colormapStep (ResolvedDtype.np NpDtype.uint16)
        { low := none, high := none, gamma := none, color := none, shortName := some ("DAPI") }
      = Except.ok none ∧
    lookupShortName ("DAPI") = none ∧
    export_czi_channel (ResolvedDtype.np NpDtype.uint16) ("R1")
        { dtype := NpDtype.uint8, pixels := [] }
        { low := none, high := none, gamma := none, color := none, shortName := some ("DAPI") }
      = Except.error (PyError.keyError ("DAPI")) :=
  ⟨rfl, rfl,
   (C6_shortname_lookup_error (ResolvedDtype.np NpDtype.uint16) ("R1")
     { dtype := NpDtype.uint8, pixels := [] }
     { low := none, high := none, gamma := none, color := none, shortName := some ("DAPI") }
     none ("DAPI") rfl rfl rfl).1⟩

/-- C7: with a caller-supplied round number r the output filename is
"R" ++ r ++ "C" ++ n ++ ".tif", the channel number n coming from the
fixed lookup table; the witness instantiates round 2 and ShortName
"AF647" (channel 7) giving exactly "R2C7.tif", and checks the
batch-loop parse of the round from the 6th-from-last filename
character. -/
theorem C7_filename_round_pattern (czi_filename : String) (r : ℕ) (dt : ResolvedDtype)
    (image : NpImage) (cm : ChannelMetadata) (s : String) (n : ℕ) (out : ChannelOutput)
    (hs : cm.shortName = some s) (hn : lookupShortName s = some n)
    (hout : export_czi_channel dt (output_base_name czi_filename (some r)) image cm = Except.ok out) :
    out.filename = "R" ++ toString r ++ "C" ++ toString n ++ ".tif" := by
  obtain ⟨-, -, s2, n2, hs2, hn2, hf⟩ := export_czi_channel_ok_inv _ _ _ _ _ hout
  rw [hs] at hs2
  injection hs2 with hss
  subst hss
  rw [hn] at hn2
  injection hn2 with hnn
  subst hnn
  rw [hf]
  rfl

/-- Witness for C7: round 2, short name "AF647", output file "R2C7.tif";
the batch loop parses round 2 from "scan_2x.czi". -/
theorem C7_filename_round_pattern_witness :
    lookupShortName ("AF647") = some 7 ∧
    batch_round ("scan_2x.czi") = some 2 ∧
    export_czi_channel (ResolvedDtype.np NpDtype.uint16)
        (output_base_name ("scan_2x.czi") (some 2))
        { dtype := NpDtype.uint8, pixels := [] }
        { low := none, high := none, gamma := none, color := none, shortName := some ("AF647") }
      = Except.ok { filename := "R2C7.tif"
                  , image := { dtype := NpDtype.uint16, pixels := [] }
                  , colormap := none } ∧
    ({ filename := "R2C7.tif", image := { dtype := NpDtype.uint16, pixels := [] }
     , colormap := none } : ChannelOutput).filename = "R2C7.tif" :=
  ⟨rfl, rfl, rfl,
   (C7_filename_round_pattern ("scan_2x.czi") 2 (ResolvedDtype.np NpDtype.uint16)
     { dtype := NpDtype.uint8, pixels := [] }
     { low := none, high := none, gamma := none, color := none, shortName := some ("AF647") }
     ("AF647") 7
     { filename := "R2C7.tif", image := { dtype := NpDtype.uint16, pixels := [] }
     , colormap := none }
     rfl rfl rfl).trans rfl⟩

/-- C8: Low/High/Gamma fields absent from a channel's metadata default to
0, 1 and 1 with no error, and with all three absent both the rescale and
the gamma branch are skipped: the run succeeds and outputs the plain
dtype-converted plane. -/
theorem C8_missing_fields_defaults (dt : ResolvedDtype) (base_name : String) (image : NpImage)
    (cm : ChannelMetadata) (copt : Option (List (List ℕ))) (s : String) (n : ℕ)
    (hlow : cm.low = none) (hhigh : cm.high = none) (hgamma : cm.gamma = none)
    (hc : colormapStep dt cm = Except.ok copt)
    (hs : cm.shortName = some s) (hn : lookupShortName s = some n) :
    cm.low.getD 0 = 0 ∧ cm.high.getD 1 = 1 ∧ cm.gamma.getD 1 = 1 ∧
    export_czi_channel dt base_name image cm =
      Except.ok { filename := base_name ++ "C" ++ toString n ++ ".tif"
                , image := setDtypeStep dt image
                , colormap := copt } := by
  have he := export_czi_channel_ok_eq dt base_name image cm copt s n hc hs hn
  simp only [hlow, hhigh, hgamma, Option.getD_none] at he
  rw [rescaleStep_default, gammaStep_default] at he
  exact ⟨by simp [hlow], by simp [hhigh], by simp [hgamma], he⟩

/-- Witness for C8: uint8 export with all three display fields absent;
the output is the unmodified plane with the default white colormap. -/
theorem C8_missing_fields_defaults_witness :
    ({ low := none, high := none, gamma := none, color := none
     , shortName := some ("AF350") } : ChannelMetadata).low = none ∧
    colormapStep (ResolvedDtype.np NpDtype.uint8)
        { low := none, high := none, gamma := none, color := none, shortName := some ("AF350") }
      = Except.ok (some (makeColormap (255, 255, 255))) ∧
    export_czi_channel (ResolvedDtype.np NpDtype.uint8) ("R3")
        { dtype := NpDtype.uint8, pixels := [] }
        { low := none, high := none, gamma := none, color := none, shortName := some ("AF350") }
      = Except.ok { filename := "R3C1.tif"
                  , image := { dtype := NpDtype.uint8, pixels := [] }
                  , colormap := some (makeColormap (255, 255, 255)) } :=
  ⟨rfl, rfl,
   ((C8_missing_fields_defaults (ResolvedDtype.np NpDtype.uint8) ("R3")
     { dtype := NpDtype.uint8, pixels := [] }
     { low := none, high := none, gamma := none, color := none, shortName := some ("AF350") }
     (some (makeColormap (255, 255, 255))) ("AF350") 1
     rfl rfl rfl rfl rfl rfl).2.2.2).trans rfl⟩

/-- C9: a dtype argument other than "default", "uint8" and "uint16"
raises no error: the dtype variable keeps the unrecognized string, the
dtype-setting step leaves every plane unchanged (each output plane keeps
the input array's dtype), and no colormap is attached. -/
theorem C9_unrecognized_dtype (dtypeArg : String) (czi_dtype : NpDtype)
    (h1 : dtypeArg ≠ "default") (h2 : dtypeArg ≠ "uint8") (h3 : dtypeArg ≠ "uint16") :
    resolveDtype dtypeArg czi_dtype = ResolvedDtype.str dtypeArg ∧
    (∀ image : NpImage, setDtypeStep (ResolvedDtype.str dtypeArg) image = image) ∧
    (∀ (base_name : String) (image : NpImage) (cm : ChannelMetadata) (out : ChannelOutput),
       export_czi_channel (resolveDtype dtypeArg czi_dtype) base_name image cm = Except.ok out →
       out.image.dtype = image.dtype ∧ out.colormap = none) := by
  have hr : resolveDtype dtypeArg czi_dtype = ResolvedDtype.str dtypeArg := by
    unfold resolveDtype
    rw [if_neg h1, if_neg h2, if_neg h3]
  have hset : ∀ image : NpImage, setDtypeStep (ResolvedDtype.str dtypeArg) image = image := by
    intro image
    unfold setDtypeStep
    rw [if_neg (by simp), if_neg (by simp)]
  refine ⟨hr, hset, ?_⟩
  intro base_name image cm out hout
  obtain ⟨hcol, himg, -⟩ := export_czi_channel_ok_inv _ _ _ _ _ hout
  rw [hr] at hcol himg
  rw [hset] at himg
  constructor
  · rw [himg, gammaStep_dtype, rescaleStep_dtype]
  · rw [colormapStep_not_uint8 _ _ (by simp)] at hcol
    injection hcol with h4
    exact h4.symm

/-- Witness for C9: the unrecognized dtype string "float64" flows
through, the plane keeps its dtype and no colormap is attached. -/
theorem C9_unrecognized_dtype_witness :
    (("float64" : String) ≠ "default" ∧ ("float64" : String) ≠ "uint8"
      ∧ ("float64" : String) ≠ "uint16") ∧
    resolveDtype ("float64") NpDtype.uint16 = ResolvedDtype.str ("float64") ∧
    export_czi_channel (resolveDtype ("float64") NpDtype.uint16) ("B")
        { dtype := NpDtype.uint16, pixels := [] }
        { low := none, high := none, gamma := none, color := none, shortName := some ("AF350") }
      = Except.ok { filename := "BC1.tif"
                  , image := { dtype := NpDtype.uint16, pixels := [] }
                  , colormap := none } ∧
    (({ filename := "BC1.tif", image := { dtype := NpDtype.uint16, pixels := [] }
      , colormap := none } : ChannelOutput).image.dtype
        = ({ dtype := NpDtype.uint16, pixels := [] } : NpImage).dtype ∧
     ({ filename := "BC1.tif", image := { dtype := NpDtype.uint16, pixels := [] }
      , colormap := none } : ChannelOutput).colormap = none) :=
  ⟨⟨by decide, by decide, by decide⟩,
   (C9_unrecognized_dtype ("float64") NpDtype.uint16 (by decide) (by decide) (by decide)).1,
   rfl,
   (C9_unrecognized_dtype ("float64") NpDtype.uint16 (by decide) (by decide) (by decide)).2.2
     ("B") { dtype := NpDtype.uint16, pixels := [] }
     { low := none, high := none, gamma := none, color := none, shortName := some ("AF350") }
     { filename := "BC1.tif", image := { dtype := NpDtype.uint16, pixels := [] }
     , colormap := none }
     rfl⟩

/-- C10: with round_number = None the filename prefix is the input
filename's basename with its extension removed, so each output is
named {stem}C{channel}.tif. -/
theorem C10_stem_base_name (czi_filename : String) (dt : ResolvedDtype)
    (image : NpImage) (cm : ChannelMetadata) (s : String) (n : ℕ) (out : ChannelOutput)
    (hs : cm.shortName = some s) (hn : lookupShortName s = some n)
    (hout : export_czi_channel dt (output_base_name czi_filename none) image cm = Except.ok out) :
    out.filename = pySplitextRoot (pyBasename czi_filename) ++ "C" ++ toString n ++ ".tif" := by
  obtain ⟨-, -, s2, n2, hs2, hn2, hf⟩ := export_czi_channel_ok_inv _ _ _ _ _ hout
  rw [hs] at hs2
  injection hs2 with hss
  subst hss
  rw [hn] at hn2
  injection hn2 with hnn
  subst hnn
  rw [hf]
  rfl

/-- Witness for C10: the input "data/scan_R2x.czi" without a round number
yields the output filename "scan_R2xC7.tif". -/
theorem C10_stem_base_name_witness :
    pySplitextRoot (pyBasename ("data/scan_R2x.czi")) = "scan_R2x" ∧
    export_czi_channel (ResolvedDtype.np NpDtype.uint16)
        (output_base_name ("data/scan_R2x.czi") none)
        { dtype := NpDtype.uint8, pixels := [] }
        { low := none, high := none, gamma := none, color := none, shortName := some ("AF647") }
      = Except.ok { filename := "scan_R2xC7.tif"
                  , image := { dtype := NpDtype.uint16, pixels := [] }
                  , colormap := none } ∧
    ({ filename := "scan_R2xC7.tif", image := { dtype := NpDtype.uint16, pixels := [] }
     , colormap := none } : ChannelOutput).filename = "scan_R2xC7.tif" :=
  ⟨rfl, rfl,
   (C10_stem_base_name ("data/scan_R2x.czi") (ResolvedDtype.np NpDtype.uint16)
     { dtype := NpDtype.uint8, pixels := [] }
     { low := none, high := none, gamma := none, color := none, shortName := some ("AF647") }
     ("AF647") 7
     { filename := "scan_R2xC7.tif", image := { dtype := NpDtype.uint16, pixels := [] }
     , colormap := none }
     rfl rfl rfl).trans rfl⟩

/-! Numeric helper lemmas for the rescale formula and the colormap ramp. -/

/-- Entry k of a colormap ramp row. -/
theorem rampRow_getD (stop k : ℕ) (hk : k < 256) :
    (rampRow stop).getD k 0 = k * stop / 255 := by
  unfold rampRow
  rw [List.getD_eq_getElem?_getD, List.getElem?_map, List.getElem?_range hk]
  rfl

/-- Truncation of a quotient of naturals is natural division. -/
theorem truncQ_natCast_div (a b : ℕ) : truncQ ((a : ℚ) / (b : ℚ)) = ((a / b : ℕ) : ℤ) := by
  have h0 : (0:ℚ) ≤ (a : ℚ) / (b : ℚ) := by positivity
  rw [truncQ, if_neg (not_lt.mpr h0)]
  rw [← Int.natCast_floor_eq_floor h0, Nat.floor_div_nat, Nat.floor_natCast]

/-- The display range (0.5, 1.0) on a uint8 plane converts (np.round,
half to even: 127.5 rounds to 128) to the integer bounds (128, 255). -/
theorem rescaleBounds_half : rescaleBounds NpDtype.uint8 (1/2) 1 = ((128 : ℚ), (255 : ℚ)) := by
  unfold rescaleBounds npRound
  norm_num [Prod.ext_iff]

/-- Closed form of rescale_intensity on one uint8 pixel with in_range
(128, 255): clip at 128, then linear map truncated to an integer. -/
theorem rescale_u8_pixel (v : ℕ) (hv : v ≤ 255) :
    (rescale_intensity { dtype := NpDtype.uint8, pixels := [(v : ℚ)] } (128, 255)).pixels
      = [((if v ≤ 128 then 0 else ((v - 128) * 255) / 127 : ℕ) : ℚ)] := by
  simp only [rescale_intensity, dtype_limits, castToDtype, List.map_cons, List.map_nil]
  rw [if_pos (show (128:ℚ) ≠ 255 by norm_num)]
  rcases le_or_lt v 128 with h | h
  · have hmax : max ((v:ℚ)) 128 = 128 := max_eq_right (by exact_mod_cast h)
    have hmin : min (128:ℚ) 255 = 128 := by norm_num
    rw [hmax, hmin, if_pos h]
    norm_num [truncQ]
  · have hmax : max ((v:ℚ)) 128 = v := max_eq_left (by exact_mod_cast h.le)
    have hmin : min ((v:ℚ)) 255 = v := min_eq_left (by exact_mod_cast hv)
    rw [hmax, hmin, if_neg (by omega)]
    have harg : ((v:ℚ) - 128) / (255 - 128) * (255 - 0) + 0
        = (((v - 128) * 255 : ℕ) : ℚ) / ((127:ℕ) : ℚ) := by
      push_cast [Nat.cast_sub (by omega : 128 ≤ v)]
      ring
    rw [harg, truncQ_natCast_div]
    rw [Int.cast_natCast]

/-- C2: on a uint8 plane with display range (0.5, 1.0) the bounds are
converted by rounding to (128, 255); every input value at most 127 maps
to 0, the value 255 maps to 255, and in between the transform is the
clipped linear interpolation (v - 128) * 255 / 127 truncated to an
integer. -/
theorem C2_display_range_half (v : ℕ) (hv : v ≤ 255) :
    rescaleBounds NpDtype.uint8 (1/2) 1 = ((128 : ℚ), (255 : ℚ)) ∧
    (rescaleStep { dtype := NpDtype.uint8, pixels := [(v : ℚ)] } (1/2) 1).pixels
        = [((if v ≤ 128 then 0 else ((v - 128) * 255) / 127 : ℕ) : ℚ)] ∧
    (v ≤ 127 →
      (rescaleStep { dtype := NpDtype.uint8, pixels := [(v : ℚ)] } (1/2) 1).pixels = [(0 : ℚ)]) ∧
    (v = 255 →
      (rescaleStep { dtype := NpDtype.uint8, pixels := [(v : ℚ)] } (1/2) 1).pixels = [(255 : ℚ)]) := by
  have hstep : rescaleStep { dtype := NpDtype.uint8, pixels := [(v : ℚ)] } (1/2) 1
      = rescale_intensity { dtype := NpDtype.uint8, pixels := [(v : ℚ)] } (128, 255) := by
    unfold rescaleStep
    rw [if_pos (Or.inl (by norm_num))]
    rw [show rescaleBounds ({ dtype := NpDtype.uint8, pixels := [(v : ℚ)] } : NpImage).dtype (1/2) 1
          = ((128:ℚ), (255:ℚ)) from rescaleBounds_half]
  have hpix := rescale_u8_pixel v hv
  refine ⟨rescaleBounds_half, by rw [hstep]; exact hpix, ?_, ?_⟩
  · intro h127
    rw [hstep, hpix, if_pos (by omega : v ≤ 128)]
    norm_num
  · intro h255
    subst h255
    rw [hstep, hpix, if_neg (by omega)]
    norm_num

/-- Witness for C2 at pixel value 200: below-bound values map to 0 and
the value 200 follows the linear formula. -/
theorem C2_display_range_half_witness :
    (200 ≤ 255) ∧
    ((200 : ℕ) ≤ 127 →
      (rescaleStep { dtype := NpDtype.uint8, pixels := [((200:ℕ) : ℚ)] } (1/2) 1).pixels
        = [(0 : ℚ)]) ∧
    (rescaleStep { dtype := NpDtype.uint8, pixels := [((200:ℕ) : ℚ)] } (1/2) 1).pixels
        = [((if (200:ℕ) ≤ 128 then 0 else (((200:ℕ) - 128) * 255) / 127 : ℕ) : ℚ)] :=
  ⟨by decide, (C2_display_range_half 200 (by decide)).2.2.1,
   (C2_display_range_half 200 (by decide)).2.1⟩

/-- Counterexample to C3: for a float32 source plane with display range
(0.5, 1.0) — which differs from (0, 1) — the bounds are passed to
rescale_intensity entirely unchanged, and the lower bound 1/2 is not an
integer, so it lies in no native integer range: the claimed invariant
for all source dtypes fails. -/
theorem C3_counterexample :
    (((1:ℚ)/2, (1:ℚ)) ≠ ((0:ℚ), (1:ℚ))) ∧
    rescaleBounds (NpDtype.other ("float32")) (1/2) 1 = (1/2, 1) ∧
    ¬ ∃ z : ℤ, (rescaleBounds (NpDtype.other ("float32")) (1/2) 1).1 = (z : ℚ) := by
  refine ⟨by norm_num, rfl, ?_⟩
  rintro ⟨z, hz⟩
  have hz2 : (1:ℚ)/2 = (z:ℚ) := hz
  rw [div_eq_iff (by norm_num : (2:ℚ) ≠ 0)] at hz2
  have h3 : (1:ℤ) = z * 2 := by exact_mod_cast hz2
  omega

/-- C3 (amended): only for uint8 and uint16 source planes does the code
rescale the display bounds into the dtype's native integer range (by
rounding after scaling by 255 respectively 65535); for every other
source dtype the rescale branch passes the bounds to rescale_intensity
unchanged. -/
theorem C3_amended_bounds (display_min display_max : ℚ) (s : String) (px : List ℚ)
    (h : display_min ≠ 0 ∨ display_max ≠ 1) :
    rescaleBounds NpDtype.uint8 display_min display_max
        = ((npRound (display_min * 255) : ℚ), (npRound (display_max * 255) : ℚ)) ∧
    rescaleBounds NpDtype.uint16 display_min display_max
        = ((npRound (display_min * 65535) : ℚ), (npRound (display_max * 65535) : ℚ)) ∧
    rescaleBounds (NpDtype.other s) display_min display_max = (display_min, display_max) ∧
    rescaleStep { dtype := NpDtype.other s, pixels := px } display_min display_max
        = rescale_intensity { dtype := NpDtype.other s, pixels := px } (display_min, display_max) := by
  refine ⟨rfl, rfl, rfl, ?_⟩
  unfold rescaleStep
  rw [if_pos h]
  rfl

/-- Witness for the amended C3: a float32 plane with display range
(0.5, 1.0) reaches rescale_intensity with the bounds unconverted. -/
theorem C3_amended_bounds_witness :
    ((1:ℚ)/2 ≠ 0 ∨ (1:ℚ) ≠ 1) ∧
    rescaleStep { dtype := NpDtype.other ("float32"), pixels := [] } (1/2) 1
      = rescale_intensity { dtype := NpDtype.other ("float32"), pixels := [] } (1/2, 1) :=
  ⟨Or.inl (by norm_num),
   (C3_amended_bounds (1/2) 1 ("float32") [] (Or.inl (by norm_num))).2.2.2⟩

/-- A character with a hex-digit value is not the hash character. -/
theorem hexDigitVal_ne_hash (c : Char) (d : ℕ) (h : hexDigitVal c = some d) : ¬(c = '#') := by
  intro he
  subst he
  rw [show hexDigitVal '#' = none from rfl] at h
  exact Option.noConfusion h

/-- Every ramp row starts at 0. -/
theorem rampRow_first (stop : ℕ) : (rampRow stop).getD 0 0 = 0 := by
  rw [rampRow_getD stop 0 (by omega)]
  simp

/-- Every ramp row ends exactly at its stop value. -/
theorem rampRow_last (stop : ℕ) : (rampRow stop).getD 255 0 = stop := by
  rw [rampRow_getD stop 255 (by omega)]
  exact Nat.mul_div_cancel_left stop (by omega)

/-- Every ramp row is monotonically non-decreasing. -/
theorem rampRow_mono (stop j k : ℕ) (hjk : j ≤ k) (hk : k ≤ 255) :
    (rampRow stop).getD j 0 ≤ (rampRow stop).getD k 0 := by
  rw [rampRow_getD stop j (by omega), rampRow_getD stop k (by omega)]
  exact Nat.div_le_div_right (Nat.mul_le_mul_right stop hjk)

/-- Parsing a two-hex-digit slice. -/
theorem pyIntHex_pair (c1 c2 : Char) (d1 d2 : ℕ)
    (h1 : hexDigitVal c1 = some d1) (h2 : hexDigitVal c2 = some d2) :
    pyIntHex [c1, c2] = some (d1 * 16 + d2) := by
  simp [pyIntHex, h1, h2, List.foldlM]

/-- C4: for every 8-hex-digit ARGB color string the uint8 colormap branch
succeeds and produces the three ramps to the decoded R, G and B
components (the two alpha digits d0, d1 are ignored); each ramp row
starts at 0, ends exactly at its component, and is monotonically
non-decreasing in between. -/
theorem C4_colormap_ramp (c0 c1 c2 c3 c4 c5 c6 c7 : Char) (d0 d1 d2 d3 d4 d5 d6 d7 : ℕ)
    (h0 : hexDigitVal c0 = some d0) (h1 : hexDigitVal c1 = some d1)
    (h2 : hexDigitVal c2 = some d2) (h3 : hexDigitVal c3 = some d3)
    (h4 : hexDigitVal c4 = some d4) (h5 : hexDigitVal c5 = some d5)
    (h6 : hexDigitVal c6 = some d6) (h7 : hexDigitVal c7 = some d7)
    (cm : ChannelMetadata)
    (hcol : cm.color = some (String.mk [c0, c1, c2, c3, c4, c5, c6, c7])) :
    colormapStep (ResolvedDtype.np NpDtype.uint8) cm
        = Except.ok (some (makeColormap (d2 * 16 + d3, d4 * 16 + d5, d6 * 16 + d7))) ∧
    ∀ stop ∈ [d2 * 16 + d3, d4 * 16 + d5, d6 * 16 + d7],
      (rampRow stop).getD 0 0 = 0 ∧
      (rampRow stop).getD 255 0 = stop ∧
      ∀ j k, j ≤ k → k ≤ 255 → (rampRow stop).getD j 0 ≤ (rampRow stop).getD k 0 := by
  constructor
  · have hdrop : colorHexPart (String.mk [c0, c1, c2, c3, c4, c5, c6, c7])
        = String.mk [c2, c3, c4, c5, c6, c7] := by
      unfold colorHexPart
      rw [show (String.mk [c0, c1, c2, c3, c4, c5, c6, c7]).toList
            = [c0, c1, c2, c3, c4, c5, c6, c7] from rfl]
      rw [List.dropWhile_cons, if_neg (by simpa using hexDigitVal_ne_hash c0 d0 h0)]
      rfl
    have e1 : ((String.mk [c2, c3, c4, c5, c6, c7]).toList.take 2) = [c2, c3] := rfl
    have e2 : (((String.mk [c2, c3, c4, c5, c6, c7]).toList.drop 2).take 2) = [c4, c5] := rfl
    have e3 : (((String.mk [c2, c3, c4, c5, c6, c7]).toList.drop 4).take 2) = [c6, c7] := rfl
    have hrgb : hex_to_rgb (String.mk [c2, c3, c4, c5, c6, c7])
        = some (d2 * 16 + d3, d4 * 16 + d5, d6 * 16 + d7) := by
      simp only [hex_to_rgb, e1, e2, e3,
        pyIntHex_pair c2 c3 d2 d3 h2 h3, pyIntHex_pair c4 c5 d4 d5 h4 h5,
        pyIntHex_pair c6 c7 d6 d7 h6 h7]
    unfold colormapStep
    rw [if_pos rfl, hcol]
    simp only [Option.getD_some, hdrop, hrgb]
  · intro stop _
    exact ⟨rampRow_first stop, rampRow_last stop,
      fun j k hjk hk => rampRow_mono stop j k hjk hk⟩

/-- Witness for C4 on the color string "00FF8040" (alpha 00, R 255,
G 128, B 64). -/
theorem C4_colormap_ramp_witness :
    hexDigitVal '0' = some 0 ∧ hexDigitVal 'F' = some 15 ∧
    hexDigitVal '8' = some 8 ∧ hexDigitVal '4' = some 4 ∧
    colormapStep (ResolvedDtype.np NpDtype.uint8)
        { low := none, high := none, gamma := none, color := some ("00FF8040")
        , shortName := some ("AF350") }
      = Except.ok (some (makeColormap (15 * 16 + 15, 8 * 16 + 0, 4 * 16 + 0))) ∧
    (rampRow (15 * 16 + 15)).getD 0 0 = 0 ∧
    (rampRow (15 * 16 + 15)).getD 255 0 = 15 * 16 + 15 ∧
    (rampRow (4 * 16 + 0)).getD 100 0 ≤ (rampRow (4 * 16 + 0)).getD 200 0 :=
  ⟨rfl, rfl, rfl, rfl,
   (C4_colormap_ramp '0' '0' 'F' 'F' '8' '0' '4' '0' 0 0 15 15 8 0 4 0
      rfl rfl rfl rfl rfl rfl rfl rfl
      { low := none, high := none, gamma := none, color := some ("00FF8040")
      , shortName := some ("AF350") }
      rfl).1,
   ((C4_colormap_ramp '0' '0' 'F' 'F' '8' '0' '4' '0' 0 0 15 15 8 0 4 0
      rfl rfl rfl rfl rfl rfl rfl rfl
      { low := none, high := none, gamma := none, color := some ("00FF8040")
      , shortName := some ("AF350") }
      rfl).2 (15 * 16 + 15) (by simp)).1,
   ((C4_colormap_ramp '0' '0' 'F' 'F' '8' '0' '4' '0' 0 0 15 15 8 0 4 0
      rfl rfl rfl rfl rfl rfl rfl rfl
      { low := none, high := none, gamma := none, color := some ("00FF8040")
      , shortName := some ("AF350") }
      rfl).2 (15 * 16 + 15) (by simp)).2.1,
   ((C4_colormap_ramp '0' '0' 'F' 'F' '8' '0' '4' '0' 0 0 15 15 8 0 4 0
      rfl rfl rfl rfl rfl rfl rfl rfl
      { low := none, high := none, gamma := none, color := some ("00FF8040")
      , shortName := some ("AF350") }
      rfl).2 (4 * 16 + 0) (by simp)).2.2 100 200 (by omega) (by omega)⟩
